import Mathlib

/-!
Verification of the generic instrument-communication layer of the
RxLab-Instruments repository (files labinstruments/generic.py,
labinstruments/hittite.py, labinstruments/microlambda.py).

Text is modelled as a list of character codes (Nat); raw wire bytes the
same way.  An incoming byte stream is modelled as the list of chunks the
successive recv / read_some calls return, in order.  Fallible Python
operations (encoding, decoding, the accumulation loop on an idle
connection) are modelled with Option, none standing for the raised
exception or the hang.
-/

namespace LabInstruments

/-- The ASCII codes the Python strip method removes, those for which the
isspace test holds: tab through carriage return (9 to 13), the four
separator controls (28 to 31) and the space (32). -/
def isSpace (c : Nat) : Bool :=
  (9 ≤ c && c ≤ 13) || (28 ≤ c && c ≤ 31) || c == 32

/-- Remove trailing whitespace (the right half of the strip method). -/
def rstrip (l : List Nat) : List Nat :=
  (l.reverse.dropWhile isSpace).reverse

/-- The Python strip method on ASCII text: remove trailing and leading
whitespace. -/
def stripWS (l : List Nat) : List Nat :=
  (rstrip l).dropWhile isSpace

/-- bytes.decode with the ASCII codec: succeeds exactly when every byte
is below 128, and then is the identity on the code points. -/
def decodeASCII (bs : List Nat) : Option (List Nat) :=
  if bs.all (fun c => c < 128) then some bs else none

/-- From GenericInstrument._send (generic.py lines 70-79): append a line
feed to the command, encode with the ASCII codec, hand the bytes to
socket send.  The result is the byte string given to send; none models
the UnicodeEncodeError raised by encode, in which case send is never
reached and no bytes are written. -/
def genericSend (msg : List Nat) : Option (List Nat) :=
  if (msg ++ [10]).all (fun c => c < 128) then some (msg ++ [10]) else none

/-- From GenericInstrument._receive (generic.py lines 81-90): one recv of
at most 1024 bytes, decoded with the ASCII codec, then stripped on both
ends.  The argument is the chunk recv returned. -/
def genericReceive (chunk : List Nat) : Option (List Nat) :=
  (decodeASCII chunk).map stripWS

/-- Receive side of GenericInstrument._query (generic.py lines 110-119):
a single call to _receive, consuming only the first chunk of the
incoming stream. -/
def genericQueryRecv (chunks : List (List Nat)) : Option (List Nat) :=
  genericReceive (chunks.headD [])

/-- The accumulation loop of GenericInstrument._receive_all (generic.py
lines 100-107): append each recv result to the accumulated data and stop
as soon as a recv returns fewer than 1024 bytes.  When the chunk list is
exhausted without a short chunk, the loop issues a further recv on an
idle connection; none models that hang. -/
def receiveAllLoop : List (List Nat) → Option (List Nat)
  | [] => none
  | c :: rest =>
      if c.length < 1024 then some c
      else (receiveAllLoop rest).map (fun d => c ++ d)

/-- GenericInstrument._receive_all (generic.py lines 92-108): run the
accumulation loop, then decode the accumulated bytes with the ASCII
codec. -/
def receiveAll (chunks : List (List Nat)) : Option (List Nat) :=
  (receiveAllLoop chunks).bind decodeASCII

/-- The number of recv calls the accumulation loop performs on the given
chunk sequence, counting the final recv that is issued after the data
runs out when no chunk was short. -/
def receiveAllCalls : List (List Nat) → Nat
  | [] => 1
  | c :: rest => if c.length < 1024 then 1 else 1 + receiveAllCalls rest

/-- From GenericInstrumentTelnet._query (generic.py lines 160-166) and
the identical YigFilter._query (microlambda.py lines 51-57): one
read_some, decoded, every greater-than sign (62) removed by the replace
call, then stripped on both ends.  The guard models the ASCII fragment
of the UTF-8 codec, which is all the replies considered here use. -/
def telnetQueryRecv (chunk : List Nat) : Option (List Nat) :=
  if chunk.all (fun c => c < 128) then
    some (stripWS (chunk.filter (fun c => !(c == 62))))
  else none

/-- YigFilter.__init__ (microlambda.py lines 39-43) performs four
read_some calls whose results are discarded. -/
def yigBannerReads : Nat := 4

/-- GenericInstrumentTelnet.__init__ (generic.py lines 150-152) opens the
Telnet session and performs no banner reads. -/
def genericTelnetBannerReads : Nat := 0

/-- The first query reply seen on a Telnet-style session: connection
setup consumes the given number of chunks from the stream, and the first
query then reads the next chunk. -/
def telnetFirstReply (bannerReads : Nat) (chunks : List (List Nat)) :
    Option (List Nat) :=
  telnetQueryRecv ((chunks.drop bannerReads).headD [])

/-- The code points of the identity query text *IDN? sent by
GenericInstrument.get_id. -/
def idn : List Nat := [42, 73, 68, 78, 63]

/-- Replace every comma (44) by a space (32), as the replace call in
GenericInstrument.get_id does. -/
def replaceCommaSpace (l : List Nat) : List Nat :=
  l.map (fun c => if c == 44 then 32 else c)

/-- Receive side of GenericInstrument.get_id (generic.py lines 59-63):
the _receive result (decoded and stripped) with commas replaced by
spaces and a final strip. -/
def getIdRecv (chunk : List Nat) : Option (List Nat) :=
  (genericReceive chunk).map (fun s => stripWS (replaceCommaSpace s))

/-- The bytes GenericInstrument.get_id sends: the identity query through
_send. -/
def getIdSent : Option (List Nat) := genericSend idn

/-- The attributes GenericInstrument.__init__ stores after connecting
(generic.py lines 48-52). -/
structure GenericInstrumentState where
  id_str : Option (List Nat)
  verbose : Bool

/-- GenericInstrument.__init__ after the socket is connected: it calls
get_id, whose reply is the first chunk of the incoming stream, and
caches the result in the id_str attribute. -/
def genericInstrumentInit (chunks : List (List Nat)) (verbose : Bool) :
    GenericInstrumentState :=
  { id_str := getIdRecv (chunks.headD []), verbose := verbose }

/-- Outcome of the connection attempt made inside a constructor. -/
inductive ConnectAttempt where
  | success
  | addrError
  | sockError
deriving DecidableEq

/-- What a constructor does overall: return a connected object, end the
process through sys.exit, or let an exception escape because the name
sys is not defined in the module. -/
inductive OpenOutcome where
  | connected
  | processExit (code : Nat)
  | nameError
deriving DecidableEq

/-- Each except handler in the constructors prints a diagnostic and then
evaluates sys.exit(1).  When the module imports sys the process ends
with status 1; otherwise evaluating the name sys raises NameError. -/
def exceptHandlerOutcome (moduleImportsSys : Bool) : OpenOutcome :=
  if moduleImportsSys then OpenOutcome.processExit 1 else OpenOutcome.nameError

/-- GenericInstrument.__init__ (generic.py lines 27-46): connect, with
except handlers for the address error and the generic socket error.
The module generic.py imports socket, telnetlib, time, pyvisa and vxi11
but not sys. -/
def genericOpen : ConnectAttempt → OpenOutcome
  | ConnectAttempt.success => OpenOutcome.connected
  | ConnectAttempt.addrError => exceptHandlerOutcome false
  | ConnectAttempt.sockError => exceptHandlerOutcome false

/-- Hittite.__init__ (hittite.py lines 40-57): same handler structure,
and hittite.py does import sys. -/
def hittiteOpen : ConnectAttempt → OpenOutcome
  | ConnectAttempt.success => OpenOutcome.connected
  | ConnectAttempt.addrError => exceptHandlerOutcome true
  | ConnectAttempt.sockError => exceptHandlerOutcome true

/-- State of the underlying channel object. -/
inductive ChanState where
  | opened
  | closed
deriving DecidableEq

/-- The close method of the Python socket and telnetlib channel objects:
it moves the channel to the closed state and succeeds also when the
channel is already closed.  The boolean records whether the call
raised. -/
def socketClose (_ : ChanState) : ChanState × Bool :=
  (ChanState.closed, false)

/-- GenericInstrument.close (generic.py lines 54-57): delegate to the
socket close method. -/
def genericClose (s : ChanState) : ChanState × Bool := socketClose s

/-- GenericInstrumentTelnet.close (generic.py lines 168-171): delegate to
the telnetlib close method. -/
def telnetClose (s : ChanState) : ChanState × Bool := socketClose s

/-- From GenericInstrument.__init__ (generic.py lines 27-36): the
timeout argument is applied with settimeout only under a truthiness
test, so a timeout of zero leaves the socket in its default blocking
mode, exactly like passing no timeout. -/
def socketConfiguredTimeout (timeout : Option ℚ) : Option ℚ :=
  match timeout with
  | none => none
  | some x => if x = 0 then none else some x

/-- A recv on the channel can raise the timeout exception only when a
timeout is configured on it; a blocking socket waits forever instead. -/
def canRaiseTimeout (t : Option ℚ) : Bool := t.isSome

/-! ## Helper lemmas about stripping -/

theorem isSpace_map_comma {c : Nat} (h : isSpace c = true) :
    isSpace (if c == 44 then 32 else c) = true := by
  by_cases hc : c = 44
  · subst hc
    exact absurd h (by decide)
  · rw [if_neg (by simp [hc])]
    exact h

theorem dropWhile_eq_nil_of_all {l : List Nat}
    (h : ∀ c ∈ l, isSpace c = true) : l.dropWhile isSpace = [] := by
  induction l with
  | nil => rfl
  | cons c t ih =>
      rw [List.dropWhile_cons_of_pos (h c (by simp))]
      exact ih fun x hx => h x (by simp [hx])

/-- Whitespace-only padding on the right does not change the strip
result. -/
theorem stripWS_append_right (X sp : List Nat)
    (h : ∀ c ∈ sp, isSpace c = true) : stripWS (X ++ sp) = stripWS X := by
  unfold stripWS rstrip
  rw [List.reverse_append, List.dropWhile_append_of_pos
    (fun a ha => h a (List.mem_reverse.mp ha))]

/-- Whitespace-only padding on the left does not change the strip
result. -/
theorem stripWS_append_left (sp X : List Nat)
    (h : ∀ c ∈ sp, isSpace c = true) : stripWS (sp ++ X) = stripWS X := by
  unfold stripWS rstrip
  rw [List.reverse_append, List.dropWhile_append]
  by_cases hX : (X.reverse.dropWhile isSpace).isEmpty
  · rw [if_pos hX]
    rw [dropWhile_eq_nil_of_all (fun a ha => h a (List.mem_reverse.mp ha))]
    rw [List.isEmpty_iff] at hX
    rw [hX]
  · rw [if_neg hX, List.reverse_append, List.reverse_reverse,
      List.dropWhile_append_of_pos h]

/-- Stripping a newline-terminated text equals stripping the text. -/
theorem stripWS_append_newline (l : List Nat) :
    stripWS (l ++ [10]) = stripWS l := by
  apply stripWS_append_right
  intro c hc
  simp only [List.mem_singleton] at hc
  subst hc
  rfl

theorem stripWS_replicate {c : Nat} (h : isSpace c = false) (n : Nat) :
    stripWS (List.replicate n c) = List.replicate n c := by
  unfold stripWS rstrip
  rw [List.reverse_replicate, List.dropWhile_replicate, if_neg (by simp [h]),
    List.reverse_replicate, List.dropWhile_replicate, if_neg (by simp [h])]

theorem dropWhile_map_dropWhile (g : Nat → Nat)
    (hg : ∀ c, isSpace c = true → isSpace (g c) = true) (l : List Nat) :
    ((l.dropWhile isSpace).map g).dropWhile isSpace
      = (l.map g).dropWhile isSpace := by
  induction l with
  | nil => rfl
  | cons c t ih =>
      by_cases h : isSpace c
      · rw [List.dropWhile_cons_of_pos h, List.map_cons,
          List.dropWhile_cons_of_pos (hg c h), ih]
      · rw [List.dropWhile_cons_of_neg h]

/-- Mapping a space-preserving function commutes with discarding the
left strip before the final strip. -/
theorem stripWS_map_lstrip (g : Nat → Nat)
    (hg : ∀ c, isSpace c = true → isSpace (g c) = true) (l : List Nat) :
    stripWS ((l.dropWhile isSpace).map g) = stripWS (l.map g) := by
  have hsp : ∀ a ∈ (l.takeWhile isSpace).map g, isSpace a = true := by
    intro a ha
    rw [List.mem_map] at ha
    obtain ⟨b, hb, rfl⟩ := ha
    exact hg b (List.mem_takeWhile_imp hb)
  conv_rhs => rw [← List.takeWhile_append_dropWhile isSpace l]
  rw [List.map_append, stripWS_append_left _ _ hsp]

/-- Mapping a space-preserving function commutes with discarding the
right strip before the final strip. -/
theorem stripWS_map_rstrip (g : Nat → Nat)
    (hg : ∀ c, isSpace c = true → isSpace (g c) = true) (l : List Nat) :
    stripWS ((rstrip l).map g) = stripWS (l.map g) := by
  have hsp : ∀ a ∈ (l.reverse.takeWhile isSpace).reverse.map g,
      isSpace a = true := by
    intro a ha
    rw [List.mem_map] at ha
    obtain ⟨b, hb, rfl⟩ := ha
    exact hg b (List.mem_takeWhile_imp (List.mem_reverse.mp hb))
  have hdecomp : l = rstrip l ++ (l.reverse.takeWhile isSpace).reverse := by
    unfold rstrip
    rw [← List.reverse_append, List.takeWhile_append_dropWhile,
      List.reverse_reverse]
  conv_rhs => rw [hdecomp]
  rw [List.map_append, stripWS_append_right _ _ hsp]

/-- Stripping before a space-preserving map does not change the stripped
result of the map. -/
theorem stripWS_map_stripWS (g : Nat → Nat)
    (hg : ∀ c, isSpace c = true → isSpace (g c) = true) (l : List Nat) :
    stripWS ((stripWS l).map g) = stripWS (l.map g) := by
  have h1 : stripWS l = (rstrip l).dropWhile isSpace := rfl
  rw [h1, stripWS_map_lstrip g hg (rstrip l), stripWS_map_rstrip g hg l]

/-- The double strip performed by get_id collapses: stripping, replacing
commas, and stripping again equals replacing commas and stripping. -/
theorem stripWS_replaceComma_stripWS (l : List Nat) :
    stripWS (replaceCommaSpace (stripWS l)) = stripWS (replaceCommaSpace l) := by
  unfold replaceCommaSpace
  exact stripWS_map_stripWS _ (fun c h => isSpace_map_comma h) l

/-! ## Concrete chunk data used by witnesses and counterexamples -/

/-- A full-size chunk of 1024 bytes, all the letter A (65). -/
def chunkA : List Nat := List.replicate 1024 65

/-- A full-size chunk of 1024 bytes, all the letter B (66). -/
def chunkB : List Nat := List.replicate 1024 66

/-- A short chunk of 500 bytes, all the letter C (67). -/
def chunkC : List Nat := List.replicate 500 67

theorem all_lt128_replicate (n a : Nat) (h : a < 128) :
    (List.replicate n a).all (fun c => c < 128) = true := by
  rw [List.all_eq_true]
  intro x hx
  rw [List.mem_replicate] at hx
  simp only [hx.2]
  exact decide_eq_true h

theorem chunkA_ascii : chunkA.all (fun c => c < 128) = true :=
  all_lt128_replicate 1024 65 (by omega)

theorem chunkA_len : chunkA.length = 1024 := List.length_replicate 1024 65

theorem chunkB_len : chunkB.length = 1024 := List.length_replicate 1024 66

theorem chunkC_len : chunkC.length = 500 := List.length_replicate 500 67

theorem chunks_ascii :
    ((chunkA ++ chunkB ++ chunkC).all fun x => x < 128) = true := by
  unfold chunkA chunkB chunkC
  rw [List.all_append, List.all_append,
    all_lt128_replicate 1024 65 (by omega),
    all_lt128_replicate 1024 66 (by omega),
    all_lt128_replicate 500 67 (by omega)]
  rfl

/-! ## Claim theorems -/

/-- Claim C1, amended: on a transport delivering the reply in three
chunks of sizes 1024, 1024 and 500 bytes, the bulk-read helper
_receive_all loops, appending each receive result to the accumulation
buffer until a receive returns fewer than 1024 bytes, and reassembles
the chunks into the single reply of length 2548; the query operation
itself performs exactly one receive, consuming only the first chunk. -/
theorem receive_all_assembles (a b c : List Nat) (rest : List (List Nat))
    (ha : a.length = 1024) (hb : b.length = 1024) (hc : c.length = 500)
    (hascii : (a ++ b ++ c).all (fun x => x < 128) = true) :
    receiveAll (a :: b :: c :: rest) = some (a ++ b ++ c) ∧
    (a ++ b ++ c).length = 2548 ∧
    genericQueryRecv (a :: b :: c :: rest) = genericReceive a := by
  have hloop : receiveAllLoop (a :: b :: c :: rest) = some (a ++ (b ++ c)) := by
    rw [receiveAllLoop, if_neg (by omega), receiveAllLoop, if_neg (by omega),
      receiveAllLoop, if_pos (by omega)]
    rfl
  refine ⟨?_,
    by rw [List.length_append, List.length_append, ha, hb, hc], rfl⟩
  rw [receiveAll, hloop, Option.some_bind, decodeASCII,
    if_pos (by rw [← List.append_assoc]; exact hascii), List.append_assoc]

/-- Claim C1 as frozen fails on the code: against the three-chunk
transport the query operation returns only the first chunk, a reply of
length 1024, not the reassembled reply of length 2548. -/
theorem query_single_chunk_cex :
    genericQueryRecv [chunkA, chunkB, chunkC] = some chunkA ∧
    chunkA.length = 1024 ∧ ¬ chunkA.length = 2548 := by
  refine ⟨?_, chunkA_len, by rw [chunkA_len]; omega⟩
  show genericReceive chunkA = some chunkA
  rw [genericReceive, decodeASCII, if_pos chunkA_ascii, Option.map_some']
  show some (stripWS (List.replicate 1024 65)) = _
  rw [stripWS_replicate (show isSpace 65 = false from rfl) 1024]
  rfl

theorem receive_all_assembles_witness :
    receiveAll [chunkA, chunkB, chunkC] = some (chunkA ++ chunkB ++ chunkC) ∧
    (chunkA ++ chunkB ++ chunkC).length = 2548 ∧
    genericQueryRecv [chunkA, chunkB, chunkC] = genericReceive chunkA :=
  receive_all_assembles chunkA chunkB chunkC []
    chunkA_len chunkB_len chunkC_len chunks_ascii

/-- Claim C2, amended: for every command text within ASCII range that
carries no leading or trailing whitespace, appending the line feed,
encoding as ASCII, then decoding and stripping on the loopback path
yields exactly the original command text. -/
theorem framing_roundtrip (msg : List Nat)
    (hascii : msg.all (fun c => c < 128) = true)
    (hstrip : stripWS msg = msg) :
    (genericSend msg).bind genericReceive = some msg := by
  rw [genericSend, if_pos (by simp [hascii]), Option.some_bind,
    genericReceive, decodeASCII, if_pos (by simp [hascii]), Option.map_some',
    stripWS_append_newline, hstrip]

/-- Claim C2 as frozen fails on the code: the command text made of the
letter x followed by a space (codes 120, 32) comes back with the
trailing space stripped, not identical to the original. -/
theorem framing_roundtrip_cex :
    (genericSend [120, 32]).bind genericReceive = some [120] ∧
    some [120] ≠ some ([120, 32] : List Nat) := by decide

theorem framing_roundtrip_witness :
    (genericSend [70, 82, 69, 81, 63]).bind genericReceive
      = some [70, 82, 69, 81, 63] :=
  framing_roundtrip [70, 82, 69, 81, 63] (by decide) (by decide)

/-- Claim C3, amended: for a reply that is one line of text followed by
the line terminator, the stream-socket query returns the text with the
terminator and any leading or trailing whitespace stripped, and nothing
else changed; the remote-terminal query additionally deletes every
greater-than character (62) from the text before stripping. -/
theorem query_reply_strip (t : List Nat)
    (hascii : t.all (fun c => c < 128) = true) :
    genericQueryRecv [t ++ [10]] = some (stripWS t) ∧
    telnetQueryRecv (t ++ [10]) =
      some (stripWS (t.filter (fun c => !(c == 62)))) := by
  constructor
  · show genericReceive (t ++ [10]) = some (stripWS t)
    rw [genericReceive, decodeASCII, if_pos (by simp [hascii]),
      Option.map_some', stripWS_append_newline]
  · rw [telnetQueryRecv, if_pos (by simp [hascii]), List.filter_append]
    have h10 : List.filter (fun c => !(c == 62)) [10] = [10] := rfl
    rw [h10, stripWS_append_newline]

/-- Claim C3 as frozen fails on the code: on the remote-terminal variant
the reply line A greater-than B (codes 65, 62, 66) with terminator comes
back as AB, a transformation beyond terminator stripping; and on the
stream-socket variant the reply line space A (codes 32, 65) with
terminator comes back as A, its leading whitespace stripped as well. -/
theorem telnet_prompt_removal_cex :
    telnetQueryRecv [65, 62, 66, 10] = some [65, 66] ∧
    some [65, 66] ≠ some ([65, 62, 66] : List Nat) ∧
    genericQueryRecv [[32, 65, 10]] = some [65] ∧
    some [65] ≠ some ([32, 65] : List Nat) := by decide

theorem query_reply_strip_witness :
    genericQueryRecv [[79, 62, 75] ++ [10]] = some (stripWS [79, 62, 75]) ∧
    telnetQueryRecv ([79, 62, 75] ++ [10]) =
      some (stripWS (List.filter (fun c => !(c == 62)) [79, 62, 75])) :=
  query_reply_strip [79, 62, 75] (by decide)

/-- Claim C4: the accumulation loop of _receive_all terminates exactly
when some receive returns fewer than 1024 bytes; on a reply whose chunks
are all exactly 1024 bytes the loop does not stop at the last data chunk
but performs one further receive call on the idle connection, modelled
as the hang. -/
theorem receive_all_termination (chunks : List (List Nat)) :
    ((receiveAllLoop chunks).isSome = true ↔ ∃ c ∈ chunks, c.length < 1024) ∧
    ((∀ c ∈ chunks, c.length = 1024) →
      receiveAllLoop chunks = none ∧
      receiveAllCalls chunks = chunks.length + 1) := by
  induction chunks with
  | nil =>
      constructor
      · simp [receiveAllLoop]
      · intro _
        exact ⟨rfl, rfl⟩
  | cons c t ih =>
      constructor
      · by_cases h : c.length < 1024
        · rw [receiveAllLoop, if_pos h]
          simp only [Option.isSome_some, true_iff]
          exact ⟨c, by simp, h⟩
        · rw [receiveAllLoop, if_neg h, Option.isSome_map', ih.1]
          constructor
          · rintro ⟨x, hx, hlen⟩
            exact ⟨x, List.mem_cons_of_mem c hx, hlen⟩
          · rintro ⟨x, hx, hlen⟩
            rcases List.mem_cons.mp hx with rfl | hx
            · exact absurd hlen h
            · exact ⟨x, hx, hlen⟩
      · intro hall
        have hc : c.length = 1024 := hall c (List.mem_cons_self c t)
        have h : ¬ c.length < 1024 := by omega
        have ht := ih.2 (fun x hx => hall x (List.mem_cons_of_mem c hx))
        constructor
        · rw [receiveAllLoop, if_neg h, ht.1]
          rfl
        · rw [receiveAllCalls, if_neg h, ht.2, List.length_cons]
          omega

theorem receive_all_termination_witness :
    receiveAllLoop [List.replicate 1024 65] = none ∧
    receiveAllCalls [List.replicate 1024 65] = 2 := by
  have h := (receive_all_termination [List.replicate 1024 65]).2
    (by
      intro x hx
      rw [List.mem_singleton] at hx
      rw [hx]
      exact List.length_replicate 1024 65)
  rw [List.length_singleton] at h
  exact ⟨h.1, by rw [h.2]⟩

/-- Claim C5, amended: for every failing connection attempt the
constructor prints a diagnostic and evaluates sys.exit(1); in hittite.py,
which imports sys, the process terminates with exit status 1, while in
generic.py, which does not import sys, a NameError escapes instead; in
neither case is a usable connected object produced. -/
theorem open_failure_behavior (a : ConnectAttempt)
    (h : a ≠ ConnectAttempt.success) :
    hittiteOpen a = OpenOutcome.processExit 1 ∧
    genericOpen a = OpenOutcome.nameError ∧
    hittiteOpen a ≠ OpenOutcome.connected ∧
    genericOpen a ≠ OpenOutcome.connected := by
  cases a with
  | success => exact absurd rfl h
  | addrError => exact ⟨rfl, rfl, by decide, by decide⟩
  | sockError => exact ⟨rfl, rfl, by decide, by decide⟩

/-- Claim C5 as frozen fails on the code: a refused connection makes the
hittite constructor call sys.exit(1), terminating the process rather
than propagating an error, and an unresolvable address makes the generic
constructor raise NameError rather than a connection error. -/
theorem open_failure_cex :
    hittiteOpen ConnectAttempt.sockError = OpenOutcome.processExit 1 ∧
    genericOpen ConnectAttempt.addrError = OpenOutcome.nameError := by decide

theorem open_failure_behavior_witness :
    hittiteOpen ConnectAttempt.sockError = OpenOutcome.processExit 1 ∧
    genericOpen ConnectAttempt.sockError = OpenOutcome.nameError ∧
    hittiteOpen ConnectAttempt.sockError ≠ OpenOutcome.connected ∧
    genericOpen ConnectAttempt.sockError ≠ OpenOutcome.connected :=
  open_failure_behavior ConnectAttempt.sockError (by decide)

/-- Claim C6: sending a command raises the encoding error exactly when
the text contains a character outside the 0 to 127 range; the error is
raised by encode, before the send call, so none here means no bytes were
handed to the channel. -/
theorem send_encoding_error (msg : List Nat) :
    genericSend msg = none ↔ ∃ c ∈ msg, 128 ≤ c := by
  rw [genericSend]
  cases hall : (msg ++ [10]).all (fun c => c < 128) with
  | true =>
      rw [if_pos rfl]
      rw [List.all_append, Bool.and_eq_true, List.all_eq_true] at hall
      constructor
      · intro h
        exact Option.noConfusion h
      · rintro ⟨c, hc, hge⟩
        have h65 := hall.1 c hc
        rw [decide_eq_true_eq] at h65
        omega
  | false =>
      rw [if_neg Bool.false_ne_true]
      rw [List.all_append, Bool.and_eq_false_iff] at hall
      constructor
      · intro _
        rcases hall with hall | hall
        · rw [List.all_eq_false] at hall
          obtain ⟨c, hc, hlt⟩ := hall
          rw [decide_eq_true_eq] at hlt
          exact ⟨c, hc, by omega⟩
        · rw [List.all_eq_false] at hall
          obtain ⟨c, hc, hlt⟩ := hall
          rw [List.mem_singleton] at hc
          subst hc
          exact absurd rfl hlt
      · intro _
        rfl

/-- Claim C7: closing an already closed channel succeeds, on both the
stream-socket and the Telnet transport variants: neither the first nor
the second close reports a raise. -/
theorem close_idempotent (s : ChanState) :
    (genericClose (genericClose s).1).2 = false ∧
    (telnetClose (telnetClose s).1).2 = false ∧
    (genericClose s).2 = false ∧ (telnetClose s).2 = false :=
  ⟨rfl, rfl, rfl, rfl⟩

/-- Claim C8, amended: the YIG filter constructor drains exactly four
banner reads, so with four banner chunks the first query reply is read
from the stream after them; the generic Telnet class drains none, so on
it the first query reply is read from the very first chunk, banner
included. -/
theorem banner_drain (b1 b2 b3 b4 : List Nat) (rest : List (List Nat)) :
    telnetFirstReply yigBannerReads ([b1, b2, b3, b4] ++ rest) =
      telnetQueryRecv (rest.headD []) ∧
    telnetFirstReply genericTelnetBannerReads ([b1, b2, b3, b4] ++ rest) =
      telnetQueryRecv b1 :=
  ⟨rfl, rfl⟩

/-- Claim C8 as frozen fails on the code: the generic Telnet transport
class drains no banner reads, so an unsolicited banner chunk (here the
single letter B, code 66) is returned as the reply of the first query in
place of the actual reply line (the letter A, code 65). -/
theorem banner_in_reply_cex :
    telnetFirstReply genericTelnetBannerReads [[66, 10], [65, 10]]
      = some [66] ∧
    some [66] ≠ some ([65] : List Nat) := by decide

/-- Claim C9: every get_id call sends a fresh identity query through
_send; the returned value is the decoded reply with every comma replaced
by a space and surrounding whitespace stripped, and is in general not
the verbatim reply; the constructor caches the value obtained at
construction time in the id_str attribute. -/
theorem get_id_behavior (chunk : List Nat) (chunks : List (List Nat))
    (v : Bool) (h : chunk.all (fun c => c < 128) = true) :
    getIdRecv chunk = some (stripWS (replaceCommaSpace chunk)) ∧
    getIdSent = some (idn ++ [10]) ∧
    (genericInstrumentInit chunks v).id_str = getIdRecv (chunks.headD []) ∧
    getIdRecv [65, 44, 66] ≠ some [65, 44, 66] := by
  refine ⟨?_, by decide, rfl, by decide⟩
  rw [getIdRecv, genericReceive, decodeASCII, if_pos h, Option.map_some',
    Option.map_some', stripWS_replaceComma_stripWS]

theorem get_id_behavior_witness :
    getIdRecv [32, 65, 44, 66, 10]
      = some (stripWS (replaceCommaSpace [32, 65, 44, 66, 10])) ∧
    getIdSent = some (idn ++ [10]) ∧
    (genericInstrumentInit [[32, 65, 44, 66, 10]] false).id_str
      = getIdRecv ([[32, 65, 44, 66, 10]].headD []) ∧
    getIdRecv [65, 44, 66] ≠ some [65, 44, 66] :=
  get_id_behavior [32, 65, 44, 66, 10] [[32, 65, 44, 66, 10]] false (by decide)

/-- Claim C10: a timeout argument equal to zero fails the truthiness
test, so settimeout is never called and the socket stays in its default
blocking mode, exactly as when no timeout is given; without a configured
timeout a receive can never raise the timeout exception. -/
theorem timeout_zero_ignored :
    socketConfiguredTimeout (some 0) = none ∧
    socketConfiguredTimeout (some 0) = socketConfiguredTimeout none ∧
    canRaiseTimeout (socketConfiguredTimeout (some 0)) = false := by
  refine ⟨?_, ?_, ?_⟩ <;> simp [socketConfiguredTimeout, canRaiseTimeout]

end LabInstruments
